import Mathlib

/-!
Shallow embedding of the token-lifecycle core of `src/app.py`
(Secure Attendance API) and proofs about it.

Modelling conventions:
* Timestamps (`time.time()` returns a real-valued clock reading) are
  modelled as integers `ℤ`: every claim uses only the ordering and the
  addition of timestamps, so any linearly ordered additive time domain
  gives the same branch behaviour, and `ℤ` keeps every definition
  kernel-computable.
* The module-global dictionary `TOKENS : Dict[str, Tuple[float, str]]`
  is modelled as a function `String → Option (ℤ × String)`.
* Each route handler calls `_now()` one or more times; every `_now()`
  sample is an explicit parameter of the embedded function (`t1` for the
  sample taken inside `_clean_expired`, `t2` for a later sample), with the
  understanding that real time only moves forward.
* The Google-Sheets sink (`append_attendance_row`) is an external
  collaborator: whether it raises is an explicit parameter
  (`sink : Option String`, `none` = append succeeds, `some e` = the call
  raises an exception rendered as `e`).  A successful append is recorded
  in the state (`sheetRows`); the row keeps the fields the claims talk
  about (session id, token tail, stripped student id, status).
* `secrets.token_urlsafe(24)` and `uuid.uuid4().hex` are random sources;
  the generated string is an explicit parameter of `generate` /
  `start_session`.
* FastAPI itself only rejects a request whose form is missing a field;
  a present-but-blank `student_id` reaches the handler, so the handler's
  `student_id` is an unconstrained `String` parameter.
-/

/-- One row appended by `append_attendance_row` (src/app.py lines 91-103):
session id, the last six characters of the token (`token[-6:]`), the
stripped student id (`student_id.strip()`), and the `"OK"` status.  The
timestamp and request-provenance columns are elided: no claim mentions
them. -/
structure AttendanceRow where
  session_id : String
  token_tail : String
  student_id : String
  status : String
deriving DecidableEq, Repr

/-- The mutable module state of `src/app.py`: the `TOKENS` dict
(token → (expires_at, session_id)), the `CURRENT_SESSION_ID` global, and
the rows so far appended to the external "Attendance" worksheet. -/
structure AppState where
  TOKENS : String → Option (ℤ × String)
  CURRENT_SESSION_ID : String
  sheetRows : List AttendanceRow

/-- Embeds `_clean_expired` (src/app.py lines 41-45): removes every entry
whose expiry is strictly below `now` (`if exp < now: TOKENS.pop(t)`). -/
def clean_expired (now : ℤ) (tokens : String → Option (ℤ × String)) :
    String → Option (ℤ × String) :=
  fun t =>
    match tokens t with
    | none => none
    | some e => if e.1 < now then none else some e

/-- Embeds `TOKENS.pop(token, None)`. -/
def popToken (token : String) (tokens : String → Option (ℤ × String)) :
    String → Option (ℤ × String) :=
  fun x => if x = token then none else tokens x

/-- Result of the `POST /check-in` handler as the caller sees it: either
the 200 success page (which interpolates the bound session id and the
submitted student id) or an `HTTPException` with a status code and a
detail string. -/
inductive CheckInResult where
  | success (session_id : String) (student_id : String)
  | httpError (status : Nat) (detail : String)
deriving DecidableEq, Repr

/-- Embeds Python's `str.strip()`: drops whitespace from both ends.
(Defined over the character list so that it evaluates by kernel
reduction.) -/
def pyStrip (s : String) : String :=
  String.mk (((s.data.dropWhile Char.isWhitespace).reverse.dropWhile
    Char.isWhitespace).reverse)

/-- Embeds Python's `token[-6:]`: the last six characters. -/
def pyTail6 (s : String) : String :=
  String.mk (s.data.drop (s.data.length - 6))

/-- The row built by `append_attendance_row` (src/app.py lines 91-103). -/
def appendRow (session_id token student_id : String) : AttendanceRow :=
  { session_id := session_id
    token_tail := pyTail6 token
    student_id := pyStrip student_id
    status := "OK" }

/-- Embeds the `POST /check-in` handler `check_in`
(src/app.py lines 176-204), line for line: `_clean_expired()` with
`_now() = t1` (line 181); `TOKENS.get(token)` (line 182); 401
"Invalid or expired token" if absent (line 184); compare a fresh
`_now() = t2` against `expires_at` and pop + 401 "Token expired" when
past it (lines 187-189); pop the token (line 192); call
`append_attendance_row`, surfacing an exception as the 500 (line 198);
otherwise the 200 success page.  `sink = none` means
`append_attendance_row` returns normally, `sink = some e` means it raises
an exception rendered as `e`. -/
def check_in (t1 t2 : ℤ) (sink : Option String)
    (token student_id : String) (s : AppState) : CheckInResult × AppState :=
  let cleaned := clean_expired t1 s.TOKENS
  match cleaned token with
  | none =>
    (CheckInResult.httpError 401 "Invalid or expired token",
     { s with TOKENS := cleaned })
  | some (expires_at, session_id) =>
    if t2 > expires_at then
      (CheckInResult.httpError 401 "Token expired",
       { s with TOKENS := popToken token cleaned })
    else
      match sink with
      | some e =>
        (CheckInResult.httpError 500 ("Logged-in failed: " ++ e),
         { s with TOKENS := popToken token cleaned })
      | none =>
        (CheckInResult.success session_id student_id,
         { s with
            TOKENS := popToken token cleaned
            sheetRows := s.sheetRows ++ [appendRow session_id token student_id] })

/-- The JSON body returned by `GET /generate` (src/app.py line 134). -/
structure TokenIssuance where
  token : String
  expires_in : ℤ
  session_id : String
deriving DecidableEq, Repr

/-- Embeds the `GET /generate` handler (src/app.py lines 124-134):
sweep (`_now() = t1`), draw a fresh token (`newToken`, standing for
`secrets.token_urlsafe(24)`), set `expires_at = _now() + TOKEN_TTL_SECONDS`
with `_now() = t2`, insert the entry bound to `CURRENT_SESSION_ID`, and
return the token, the TTL and the session id. -/
def generate (t1 t2 : ℤ) (newToken : String) (ttl : ℤ) (s : AppState) :
    TokenIssuance × AppState :=
  let cleaned := clean_expired t1 s.TOKENS
  let expires_at : ℤ := t2 + ttl
  ({ token := newToken, expires_in := ttl, session_id := s.CURRENT_SESSION_ID },
   { s with
      TOKENS := fun x =>
        if x = newToken then some (expires_at, s.CURRENT_SESSION_ID)
        else cleaned x })

/-- Embeds the `POST /session/start` handler `start_session`
(src/app.py lines 110-118): replaces `CURRENT_SESSION_ID` with a fresh
random id (`newId`, standing for `uuid.uuid4().hex`) and returns it;
`TOKENS` is untouched. -/
def start_session (newId : String) (s : AppState) : String × AppState :=
  (newId, { s with CURRENT_SESSION_ID := newId })

/-- Result of the `GET /scan/{token}` handler: the 401 "Token invalid or
expired" page, or the check-in form page (which interpolates the token,
the entry's expiry and its session id). -/
inductive ScanResult where
  | unauthorized
  | formPage (token : String) (expires_at : ℤ) (session_id : String)
deriving DecidableEq, Repr

/-- Embeds the `GET /scan/{token}` handler `scan_page`
(src/app.py lines 136-174): sweep (`_now() = t1`), `TOKENS.get(token)`,
401 page if absent, otherwise render the form.  No branch pops the
entry. -/
def scan_page (t1 : ℤ) (token : String) (s : AppState) :
    ScanResult × AppState :=
  let cleaned := clean_expired t1 s.TOKENS
  match cleaned token with
  | none => (ScanResult.unauthorized, { s with TOKENS := cleaned })
  | some (expires_at, session_id) =>
    (ScanResult.formPage token expires_at session_id, { s with TOKENS := cleaned })

/-- Result of the `GET /validate/{token}` handler. -/
inductive ValidateResult where
  | unauthorized
  | ok (session_id : String) (token : String) (expires_at : ℤ)
deriving DecidableEq, Repr

/-- Embeds the `GET /validate/{token}` handler (src/app.py lines 207-216):
sweep, get, 401 if absent, pop when `consume` is true, return the entry.
(The handler reports `int(expires_at)`; the truncation is presentation
only and is elided here.) -/
def validate (t1 : ℤ) (token : String) (consume : Bool) (s : AppState) :
    ValidateResult × AppState :=
  let cleaned := clean_expired t1 s.TOKENS
  match cleaned token with
  | none => (ValidateResult.unauthorized, { s with TOKENS := cleaned })
  | some (expires_at, session_id) =>
    (ValidateResult.ok session_id token expires_at,
     { s with TOKENS := if consume then popToken token cleaned else cleaned })

/-- Embeds the module-level configuration read
`TOKEN_TTL_SECONDS = int(os.getenv("TOKEN_TTL_SECONDS", "5"))`
(src/app.py line 34) for environment values that parse as integers:
the parsed value is accepted as-is, with default 5; no sign or
positivity check is performed anywhere at startup. -/
def TOKEN_TTL_SECONDS (env : Option ℤ) : ℤ :=
  env.getD 5

/-- One state-mutating call into the service, for reasoning about
arbitrary interleavings of later requests. -/
inductive Op where
  | opCheckIn (t1 t2 : ℤ) (sink : Option String) (token student_id : String)
  | opGenerate (t1 t2 : ℤ) (newToken : String) (ttl : ℤ)
  | opStartSession (newId : String)
  | opScanPage (t1 : ℤ) (token : String)
  | opValidate (t1 : ℤ) (token : String) (consume : Bool)

/-- State effect of one call. -/
def step (op : Op) (s : AppState) : AppState :=
  match op with
  | Op.opCheckIn t1 t2 sink token student_id =>
    (check_in t1 t2 sink token student_id s).2
  | Op.opGenerate t1 t2 newToken ttl => (generate t1 t2 newToken ttl s).2
  | Op.opStartSession newId => (start_session newId s).2
  | Op.opScanPage t1 token => (scan_page t1 token s).2
  | Op.opValidate t1 token consume => (validate t1 token consume s).2

/-- State after a sequence of calls. -/
def run : List Op → AppState → AppState
  | [], s => s
  | op :: ops, s => run ops (step op s)

/-- `true` iff the call is a `/generate` that draws exactly the token
string `tok` from the random source. -/
def mintsTok (op : Op) (tok : String) : Bool :=
  match op with
  | Op.opGenerate _ _ newToken _ => newToken == tok
  | _ => false

/-- A process-start state: empty `TOKENS`, the boot session id, no rows
(src/app.py lines 35-36). -/
def initState : AppState :=
  { TOKENS := fun _ => none, CURRENT_SESSION_ID := "sess0", sheetRows := [] }

/-! ## Pointwise facts about the sweep and the handlers -/

/-- The sweep never invents an entry. -/
theorem clean_expired_of_none {tokens : String → Option (ℤ × String)}
    {x : String} (t : ℤ) (h : tokens x = none) :
    clean_expired t tokens x = none := by
  simp [clean_expired, h]

/-- The sweep keeps an entry whose expiry has not strictly passed. -/
theorem clean_expired_of_live {tokens : String → Option (ℤ × String)}
    {x : String} {e : ℤ × String} {t : ℤ}
    (h : tokens x = some e) (hl : ¬ e.1 < t) :
    clean_expired t tokens x = some e := by
  simp [clean_expired, h, hl]

/-- The sweep removes an entry whose expiry has strictly passed. -/
theorem clean_expired_of_dead {tokens : String → Option (ℤ × String)}
    {x : String} {e : ℤ × String} {t : ℤ}
    (h : tokens x = some e) (hd : e.1 < t) :
    clean_expired t tokens x = none := by
  simp [clean_expired, h, hd]

/-- `check_in` on a token absent after the sweep: the not-found 401. -/
theorem check_in_of_absent {s : AppState} {token : String} {t1 : ℤ}
    (t2 : ℤ) (sink : Option String) (student_id : String)
    (h : clean_expired t1 s.TOKENS token = none) :
    check_in t1 t2 sink token student_id s
      = (CheckInResult.httpError 401 "Invalid or expired token",
         { s with TOKENS := clean_expired t1 s.TOKENS }) := by
  simp only [check_in]
  rw [h]

/-- `check_in` on a token that survives the sweep but whose expiry is
past the second clock sample: the expired 401, and the entry is popped. -/
theorem check_in_of_expired {s : AppState} {token : String} {t1 t2 : ℤ}
    {expires_at : ℤ} {session_id : String}
    (sink : Option String) (student_id : String)
    (h : clean_expired t1 s.TOKENS token = some (expires_at, session_id))
    (hx : t2 > expires_at) :
    check_in t1 t2 sink token student_id s
      = (CheckInResult.httpError 401 "Token expired",
         { s with TOKENS := popToken token (clean_expired t1 s.TOKENS) }) := by
  simp only [check_in]
  rw [h]
  simp [hx]

/-- `check_in` on a live token with a healthy sink: success carrying the
bound session id, the entry popped, the row appended. -/
theorem check_in_of_live {s : AppState} {token : String} {t1 t2 : ℤ}
    {expires_at : ℤ} {session_id : String} (student_id : String)
    (h : clean_expired t1 s.TOKENS token = some (expires_at, session_id))
    (hx : ¬ t2 > expires_at) :
    check_in t1 t2 none token student_id s
      = (CheckInResult.success session_id student_id,
         { s with
            TOKENS := popToken token (clean_expired t1 s.TOKENS)
            sheetRows := s.sheetRows
              ++ [appendRow session_id token student_id] }) := by
  simp only [check_in]
  rw [h]
  simp [hx]

/-- `check_in` on a live token with a raising sink: the 500, and the
entry stays popped. -/
theorem check_in_of_sink_raise {s : AppState} {token : String} {t1 t2 : ℤ}
    {expires_at : ℤ} {session_id : String} (student_id err : String)
    (h : clean_expired t1 s.TOKENS token = some (expires_at, session_id))
    (hx : ¬ t2 > expires_at) :
    check_in t1 t2 (some err) token student_id s
      = (CheckInResult.httpError 500 ("Logged-in failed: " ++ err),
         { s with TOKENS := popToken token (clean_expired t1 s.TOKENS) }) := by
  simp only [check_in]
  rw [h]
  simp [hx]

/-- After any `check_in` call, the called token string has no entry:
every branch either popped it or found it already gone. -/
theorem check_in_removes (t1 t2 : ℤ) (sink : Option String)
    (token student_id : String) (s : AppState) :
    ((check_in t1 t2 sink token student_id s).2).TOKENS token = none := by
  simp only [check_in]
  cases h : clean_expired t1 s.TOKENS token with
  | none => simpa using h
  | some e =>
    obtain ⟨expires_at, session_id⟩ := e
    by_cases hx : t2 > expires_at
    · simp [hx, popToken]
    · cases sink <;> simp [hx, popToken]

/-- No handler ever re-inserts an absent token string, except a
`/generate` call that happens to draw exactly that string. -/
theorem step_preserves_absent {s : AppState} {tok : String}
    (op : Op) (h : s.TOKENS tok = none) (hm : mintsTok op tok = false) :
    (step op s).TOKENS tok = none := by
  cases op with
  | opCheckIn t1 t2 sink token student_id =>
    simp only [step, check_in]
    cases hc : clean_expired t1 s.TOKENS token with
    | none => simpa using clean_expired_of_none t1 h
    | some e =>
      obtain ⟨expires_at, session_id⟩ := e
      by_cases hx : t2 > expires_at
      · simp [hx, popToken, clean_expired_of_none t1 h]
      · cases sink <;>
          simp [hx, popToken, clean_expired_of_none t1 h]
  | opGenerate t1 t2 newToken ttl =>
    have hne : tok ≠ newToken := by
      intro he
      rw [mintsTok] at hm
      exact absurd hm (by simp [he])
    simp [step, generate, hne, clean_expired_of_none t1 h]
  | opStartSession newId => simpa [step, start_session] using h
  | opScanPage t1 token =>
    simp only [step, scan_page]
    cases hc : clean_expired t1 s.TOKENS token <;>
      simp [clean_expired_of_none t1 h]
  | opValidate t1 token consume =>
    simp only [step, validate]
    cases hc : clean_expired t1 s.TOKENS token with
    | none => simpa using clean_expired_of_none t1 h
    | some e =>
      cases consume <;> simp [popToken, clean_expired_of_none t1 h]

/-- Absence of a token's entry is preserved by any sequence of calls
none of which draws that token string. -/
theorem run_preserves_absent {tok : String} (ops : List Op)
    (s : AppState) (h : s.TOKENS tok = none)
    (hops : ∀ op ∈ ops, mintsTok op tok = false) :
    (run ops s).TOKENS tok = none := by
  induction ops generalizing s with
  | nil => simpa [run] using h
  | cons op ops ih =>
    rw [run]
    exact ih (step op s)
      (step_preserves_absent op h (hops op (List.mem_cons_self op ops)))
      (fun o ho => hops o (List.mem_cons_of_mem op ho))

/-- Session rotations leave the token store untouched. -/
theorem run_rotations_TOKENS (ids : List String) (s : AppState) :
    (run (ids.map Op.opStartSession) s).TOKENS = s.TOKENS := by
  induction ids generalizing s with
  | nil => rfl
  | cons id ids ih => simpa [run, step, start_session] using ih _

/-! ## Claims -/

/-- C1: once a token string's entry is gone from the store — which is the
terminal outcome of consumption by a `check_in` call (third conjunct:
every `check_in` leaves the called token absent) and of an expiry sweep —
every later `check_in` call with that same token string, after any
sequence of further calls none of which draws the same string again from
the random source, fails with the Unauthorized-class 401
"Invalid or expired token" error and never returns the success page. -/
theorem c1_no_resurrection
    (tok : String) (s1 : AppState) (hgone : s1.TOKENS tok = none)
    (ops : List Op) (hops : ∀ op ∈ ops, mintsTok op tok = false)
    (t1 t2 : ℤ) (sink : Option String) (stud : String) :
    ((check_in t1 t2 sink tok stud (run ops s1)).1
        = CheckInResult.httpError 401 "Invalid or expired token")
    ∧ (∀ session_id student_id,
        (check_in t1 t2 sink tok stud (run ops s1)).1
          ≠ CheckInResult.success session_id student_id)
    ∧ (∀ (s0 : AppState) (u1 u2 : ℤ) (sk : Option String) (st : String),
        ((check_in u1 u2 sk tok st s0).2).TOKENS tok = none) := by
  have habs : (run ops s1).TOKENS tok = none :=
    run_preserves_absent ops s1 hgone hops
  have hres := check_in_of_absent t2 sink stud (clean_expired_of_none t1 habs)
  refine ⟨by rw [hres], ?_, ?_⟩
  · intro session_id student_id
    rw [hres]
    simp
  · intro s0 u1 u2 sk st
    exact check_in_removes u1 u2 sk tok st s0

/-- C1 witness: mint "tok", consume it, run an unrelated mint, retry. -/
theorem c1_no_resurrection_witness :
    (check_in 9 9 none "tok" "bob"
        (run [Op.opGenerate 6 6 "other" 5]
          ((check_in 1 1 none "tok" "alice"
            ((generate 0 0 "tok" 5 initState).2)).2))).1
      = CheckInResult.httpError 401 "Invalid or expired token" :=
  (c1_no_resurrection "tok"
    ((check_in 1 1 none "tok" "alice" ((generate 0 0 "tok" 5 initState).2)).2)
    (by decide) [Op.opGenerate 6 6 "other" 5]
    (by
      intro op hop
      simp only [List.mem_singleton] at hop
      subst hop
      rfl)
    9 9 none "bob").1

/-- C3 counterexample: a token minted at time T = 0 with TTL t = 5 is
accepted at exactly time T + t = 5 — the sweep removes only strictly
smaller expiries (`exp < now`) and the handler rejects only strictly
later samples (`now > expires_at`) — so "an attempt at exactly time
T + t must fail" is false on the code. -/
theorem c3_boundary_counterexample :
    (check_in 5 5 none "tok" "alice" ((generate 0 0 "tok" 5 initState).2)).1
      = CheckInResult.success "sess0" "alice" := by decide

/-- C3 amended: for a token minted with TTL `ttl` at time `T` and not
previously consumed, a consumption attempt at time `T' ≤ T + ttl`
succeeds, and an attempt at time `T' > T + ttl` fails with the 401
Unauthorized-class error (the sweep has already removed the entry, so the
generic invalid-or-expired message is returned). -/
theorem c3_expiry_monotonicity
    (s : AppState) (T ttl T' : ℤ) (tok stud : String) :
    (T' ≤ T + ttl →
      (check_in T' T' none tok stud ((generate T T tok ttl s).2)).1
        = CheckInResult.success s.CURRENT_SESSION_ID stud)
    ∧ (T + ttl < T' →
      (check_in T' T' none tok stud ((generate T T tok ttl s).2)).1
        = CheckInResult.httpError 401 "Invalid or expired token") := by
  have hmem : ((generate T T tok ttl s).2).TOKENS tok
      = some (T + ttl, s.CURRENT_SESSION_ID) := by
    simp [generate]
  constructor
  · intro hle
    have hnl : ¬ (T + ttl, s.CURRENT_SESSION_ID).1 < T' := not_lt.mpr hle
    have hcl := clean_expired_of_live hmem hnl
    rw [check_in_of_live stud hcl (not_lt.mpr hle)]
  · intro hlt
    have hcl := clean_expired_of_dead hmem hlt
    rw [check_in_of_absent T' none stud hcl]

/-- C3 witness: TTL 5 minted at 0; attempt at 3 succeeds, at 6 fails. -/
theorem c3_expiry_monotonicity_witness :
    ((check_in 3 3 none "tok" "alice" ((generate 0 0 "tok" 5 initState).2)).1
        = CheckInResult.success initState.CURRENT_SESSION_ID "alice")
    ∧ ((check_in 6 6 none "tok" "alice" ((generate 0 0 "tok" 5 initState).2)).1
        = CheckInResult.httpError 401 "Invalid or expired token") :=
  ⟨(c3_expiry_monotonicity initState 0 5 3 "tok" "alice").1 (by decide),
   (c3_expiry_monotonicity initState 0 5 6 "tok" "alice").2 (by decide)⟩

/-- C4: when consumption succeeds (token present after the sweep and not
past expiry) but the sink append raises, the caller gets the 500
SinkUnavailable-class error, the token entry stays removed, and a retry
with the same token string fails with the Unauthorized-class 401. -/
theorem c4_sink_failure
    (s : AppState) (t1 t2 : ℤ) (tok stud err : String) (exp : ℤ)
    (sid : String) (hmem : s.TOKENS tok = some (exp, sid))
    (hsw : ¬ exp < t1) (hex : ¬ t2 > exp)
    (u1 u2 : ℤ) (sink2 : Option String) (stud2 : String) :
    ((check_in t1 t2 (some err) tok stud s).1
        = CheckInResult.httpError 500 ("Logged-in failed: " ++ err))
    ∧ (((check_in t1 t2 (some err) tok stud s).2).TOKENS tok = none)
    ∧ ((check_in u1 u2 sink2 tok stud2
          ((check_in t1 t2 (some err) tok stud s).2)).1
        = CheckInResult.httpError 401 "Invalid or expired token") := by
  have hcl : clean_expired t1 s.TOKENS tok = some (exp, sid) :=
    clean_expired_of_live hmem hsw
  refine ⟨by rw [check_in_of_sink_raise stud err hcl hex],
    check_in_removes t1 t2 (some err) tok stud s, ?_⟩
  have habs :=
    clean_expired_of_none u1 (check_in_removes t1 t2 (some err) tok stud s)
  rw [check_in_of_absent u2 sink2 stud2 habs]

/-- C4 witness: mint at 0 with TTL 5, consume at 2 with a raising sink,
retry at 3. -/
theorem c4_sink_failure_witness :
    ((check_in 2 2 (some "boom") "tok" "alice"
        ((generate 0 0 "tok" 5 initState).2)).1
      = CheckInResult.httpError 500 ("Logged-in failed: " ++ "boom"))
    ∧ (((check_in 2 2 (some "boom") "tok" "alice"
        ((generate 0 0 "tok" 5 initState).2)).2).TOKENS "tok" = none)
    ∧ ((check_in 3 3 none "tok" "alice"
        ((check_in 2 2 (some "boom") "tok" "alice"
          ((generate 0 0 "tok" 5 initState).2)).2)).1
      = CheckInResult.httpError 401 "Invalid or expired token") :=
  c4_sink_failure ((generate 0 0 "tok" 5 initState).2) 2 2 "tok" "alice"
    "boom" 5 "sess0" (by decide) (by decide) (by decide) 3 3 none "alice"

/-- C5: after minting a token under session `S = s.CURRENT_SESSION_ID`,
any number of session rotations leaves the token's stored entry — expiry
and bound session id — unchanged, and a subsequent in-window consumption
returns the success page carrying `S`, not the post-rotation current
session. -/
theorem c5_session_binding
    (s : AppState) (T ttl : ℤ) (tok stud : String) (newIds : List String)
    (T' : ℤ) (hT' : T' ≤ T + ttl) :
    ((run (newIds.map Op.opStartSession)
        ((generate T T tok ttl s).2)).TOKENS tok
      = some (T + ttl, s.CURRENT_SESSION_ID))
    ∧ ((check_in T' T' none tok stud
        (run (newIds.map Op.opStartSession) ((generate T T tok ttl s).2))).1
      = CheckInResult.success s.CURRENT_SESSION_ID stud) := by
  have hrot := run_rotations_TOKENS newIds ((generate T T tok ttl s).2)
  have hmem : (run (newIds.map Op.opStartSession)
      ((generate T T tok ttl s).2)).TOKENS tok
      = some (T + ttl, s.CURRENT_SESSION_ID) := by
    rw [hrot]
    simp [generate]
  have hnl : ¬ (T + ttl, s.CURRENT_SESSION_ID).1 < T' := not_lt.mpr hT'
  have hcl := clean_expired_of_live hmem hnl
  exact ⟨hmem, by rw [check_in_of_live stud hcl (not_lt.mpr hT')]⟩

/-- C5 witness: mint under "sess0", rotate twice, consume in-window. -/
theorem c5_session_binding_witness :
    ((run (["sessA", "sessB"].map Op.opStartSession)
        ((generate 0 0 "tok" 5 initState).2)).TOKENS "tok"
      = some (0 + 5, initState.CURRENT_SESSION_ID))
    ∧ ((check_in 3 3 none "tok" "alice"
        (run (["sessA", "sessB"].map Op.opStartSession)
          ((generate 0 0 "tok" 5 initState).2))).1
      = CheckInResult.success initState.CURRENT_SESSION_ID "alice") :=
  c5_session_binding initState 0 5 "tok" "alice" ["sessA", "sessB"] 3
    (by decide)

/-- C6: behaviour of the code at the claim's input.  `check_in` performs
no validation of `student_id` (src/app.py lines 176-198 contain no
emptiness check): with a valid token and the whitespace-only student id
"   " it returns the 200 success page, consumes the token, and appends an
attendance row whose stripped student id is empty — it does not return a
400 InvalidInput error. -/
theorem c6_blank_student_id_accepted :
    ((check_in 1 1 none "tok" "   " ((generate 0 0 "tok" 5 initState).2)).1
        = CheckInResult.success "sess0" "   ")
    ∧ (((check_in 1 1 none "tok" "   "
          ((generate 0 0 "tok" 5 initState).2)).2).TOKENS "tok" = none)
    ∧ (((check_in 1 1 none "tok" "   "
          ((generate 0 0 "tok" 5 initState).2)).2).sheetRows
        = [{ session_id := "sess0", token_tail := "tok",
             student_id := "", status := "OK" }]) := by decide

/-- C7 counterexample: the two consumption-failure causes are visible to
the caller as different responses.  With a token minted to expire at
time 1, a `check_in` whose sweep samples the clock at 1 and whose expiry
check samples it at 2 returns 401 "Token expired", while an unknown token
on the same call returns 401 "Invalid or expired token" — same status,
different body, so the responses are not identical. -/
theorem c7_distinguishable_counterexample :
    ((check_in 1 2 none "tokA" "alice" ((generate 0 0 "tokA" 1 initState).2)).1
        = CheckInResult.httpError 401 "Token expired")
    ∧ ((check_in 1 2 none "tokB" "alice" ((generate 0 0 "tokA" 1 initState).2)).1
        = CheckInResult.httpError 401 "Invalid or expired token")
    ∧ (CheckInResult.httpError 401 "Token expired"
        ≠ CheckInResult.httpError 401 "Invalid or expired token") := by decide

/-- C7 amended: both consumption-failure causes map to the same
Unauthorized-class status 401, but not to the same message: a token
absent after the sweep yields detail "Invalid or expired token", while a
token that survives the sweep and fails the later expiry check yields
detail "Token expired", so a caller who reaches the second branch can
distinguish the cases. -/
theorem c7_failure_mapping
    (s : AppState) (t1 t2 : ℤ) (sink : Option String) (tok stud : String) :
    (clean_expired t1 s.TOKENS tok = none →
      (check_in t1 t2 sink tok stud s).1
        = CheckInResult.httpError 401 "Invalid or expired token")
    ∧ (∀ exp sid, clean_expired t1 s.TOKENS tok = some (exp, sid) →
        t2 > exp →
        (check_in t1 t2 sink tok stud s).1
          = CheckInResult.httpError 401 "Token expired") := by
  constructor
  · intro h
    rw [check_in_of_absent t2 sink stud h]
  · intro exp sid h hx
    rw [check_in_of_expired sink stud h hx]

/-- C7 witness: both implications at concrete inputs. -/
theorem c7_failure_mapping_witness :
    ((check_in 1 2 none "tokB" "alice" ((generate 0 0 "tokA" 1 initState).2)).1
        = CheckInResult.httpError 401 "Invalid or expired token")
    ∧ ((check_in 1 2 none "tokA" "alice" ((generate 0 0 "tokA" 1 initState).2)).1
        = CheckInResult.httpError 401 "Token expired") :=
  ⟨(c7_failure_mapping ((generate 0 0 "tokA" 1 initState).2) 1 2 none "tokB"
      "alice").1 (by decide),
   (c7_failure_mapping ((generate 0 0 "tokA" 1 initState).2) 1 2 none "tokA"
      "alice").2 1 "sess0" (by decide) (by decide)⟩

/-- C8: a `/generate` call at time `T` with TTL `ttl` under current
session `S = s.CURRENT_SESSION_ID` returns exactly the token string, the
TTL and `S`; inserts the fresh entry with expiry exactly `T + ttl` bound
to `S`; and leaves every other token at its swept value (expired entries
swept first, nothing else touched). -/
theorem c8_issue_token (s : AppState) (T : ℤ) (tok : String) (ttl : ℤ) :
    ((generate T T tok ttl s).1
        = { token := tok, expires_in := ttl,
            session_id := s.CURRENT_SESSION_ID })
    ∧ (((generate T T tok ttl s).2).TOKENS tok
        = some (T + ttl, s.CURRENT_SESSION_ID))
    ∧ (∀ x, x ≠ tok →
        ((generate T T tok ttl s).2).TOKENS x = clean_expired T s.TOKENS x)
    ∧ (((generate T T tok ttl s).2).CURRENT_SESSION_ID
        = s.CURRENT_SESSION_ID) := by
  refine ⟨rfl, by simp [generate], ?_, rfl⟩
  intro x hx
  simp [generate, hx]

/-- C8 witness: concrete mint, with the frame conjunct at "other". -/
theorem c8_issue_token_witness :
    ((generate 2 2 "tok" 5 initState).1
        = { token := "tok", expires_in := 5,
            session_id := initState.CURRENT_SESSION_ID })
    ∧ (((generate 2 2 "tok" 5 initState).2).TOKENS "tok"
        = some (2 + 5, initState.CURRENT_SESSION_ID))
    ∧ (((generate 2 2 "tok" 5 initState).2).TOKENS "other"
        = clean_expired 2 initState.TOKENS "other") :=
  ⟨(c8_issue_token initState 2 "tok" 5).1,
   (c8_issue_token initState 2 "tok" 5).2.1,
   (c8_issue_token initState 2 "tok" 5).2.2.1 "other" (by decide)⟩

/-- C9: behaviour of the code at the claim's input.  The startup
configuration read `int(os.getenv("TOKEN_TTL_SECONDS", "5"))` accepts a
zero (or negative) TTL without any error: with TTL 0 a mint at time 10
inserts an entry that already sits at its expiry bound, and a check-in
one tick later fails — misbehaviour per-call instead of a startup
configuration error. -/
theorem c9_zero_ttl_accepted :
    (TOKEN_TTL_SECONDS (some 0) = 0)
    ∧ (TOKEN_TTL_SECONDS (some (-3)) = -3)
    ∧ (((generate 10 10 "tok" (TOKEN_TTL_SECONDS (some 0)) initState).2).TOKENS
        "tok" = some (10, "sess0"))
    ∧ ((check_in 11 11 none "tok" "alice"
          ((generate 10 10 "tok" (TOKEN_TTL_SECONDS (some 0)) initState).2)).1
        = CheckInResult.httpError 401 "Invalid or expired token") := by decide

/-- C10: rendering `GET /scan/{look}` never consumes a valid token: any
entry whose expiry has not passed at the call's clock sample is present
and unchanged afterwards; pointwise, the only store mutation is the
removal of strictly-expired entries by the sweep the handler runs first
(an entry survives exactly when `¬ exp < t1`, with its value intact);
the current session and the sheet are untouched. -/
theorem c10_scan_page_frame
    (s : AppState) (t1 : ℤ) (look tok : String) (exp : ℤ) (sid : String)
    (hmem : s.TOKENS tok = some (exp, sid)) (hval : ¬ exp < t1) :
    (((scan_page t1 look s).2).TOKENS tok = some (exp, sid))
    ∧ (∀ x, ((scan_page t1 look s).2).TOKENS x
        = match s.TOKENS x with
          | none => none
          | some e => if e.1 < t1 then none else some e)
    ∧ (((scan_page t1 look s).2).CURRENT_SESSION_ID = s.CURRENT_SESSION_ID)
    ∧ (((scan_page t1 look s).2).sheetRows = s.sheetRows) := by
  have hframe : ((scan_page t1 look s).2).TOKENS
      = clean_expired t1 s.TOKENS := by
    simp only [scan_page]
    cases hc : clean_expired t1 s.TOKENS look <;> simp
  have hsess : ((scan_page t1 look s).2).CURRENT_SESSION_ID
      = s.CURRENT_SESSION_ID := by
    simp only [scan_page]
    cases hc : clean_expired t1 s.TOKENS look <;> simp
  have hrows : ((scan_page t1 look s).2).sheetRows = s.sheetRows := by
    simp only [scan_page]
    cases hc : clean_expired t1 s.TOKENS look <;> simp
  refine ⟨?_, ?_, hsess, hrows⟩
  · rw [hframe]
    exact clean_expired_of_live hmem hval
  · intro x
    rw [hframe]
    rfl

/-- C10 witness: a live token surviving a scan of another token. -/
theorem c10_scan_page_frame_witness :
    (((scan_page 3 "other" ((generate 0 0 "tok" 5 initState).2)).2).TOKENS
        "tok" = some (0 + 5, "sess0"))
    ∧ (((scan_page 3 "other"
          ((generate 0 0 "tok" 5 initState).2)).2).sheetRows
        = ((generate 0 0 "tok" 5 initState).2).sheetRows) :=
  ⟨(c10_scan_page_frame ((generate 0 0 "tok" 5 initState).2) 3 "other" "tok"
      (0 + 5) "sess0" (by decide) (by decide)).1,
   (c10_scan_page_frame ((generate 0 0 "tok" 5 initState).2) 3 "other" "tok"
      (0 + 5) "sess0" (by decide) (by decide)).2.2.2⟩
